import Mathlib

/-!
Shallow embedding of the Flask application `src/app.py` (a Spotify helper
web app): the per-track settings store backed by the `song_settings` SQLite
table, the session token holder (`_ensure_token`), the `/login`, `/playlists`,
`/settings/<track_id>` and `/transition_between` routes, and the transition
suggestion flow with its recommendation, genre-search and fixed-playlist
fallback paths.

Numeric tempo/speed/energy values are modelled as rationals (the code only
stores them, compares them for Python truthiness and averages them).
Remote Spotify calls are modelled by an explicit `RemoteApi` record of
oracles; calls that the code wraps in try/except are `Except String`-valued.
-/

namespace SpotifyApp

/-! ## Settings store (`song_settings` table) -/

abbrev TrackId := String

/-- One row of `song_settings` (and also the parsed JSON body of a
`POST /settings/<track_id>` request: `{tempo, speed}`, each possibly null). -/
structure SongSetting where
  tempo : Option ℚ
  speed : Option ℚ
  deriving DecidableEq

/-- The `song_settings` table: an association list keyed by `track_id`
(primary key, kept unique by `dbUpsert`). -/
abbrev SettingsStore := List (TrackId × SongSetting)

/-- `REPLACE INTO song_settings (track_id, tempo, speed) VALUES (?, ?, ?)`:
replace-by-primary-key upsert. -/
def dbUpsert (db : SettingsStore) (tid : TrackId) (s : SongSetting) : SettingsStore :=
  (tid, s) :: db.filter (fun p => p.1 ≠ tid)

/-- `SELECT tempo, speed FROM song_settings WHERE track_id=?` followed by
`fetchone()`. -/
def dbLookup (db : SettingsStore) (tid : TrackId) : Option SongSetting :=
  (db.find? (fun p => p.1 == tid)).map Prod.snd

/-! ## Session token holder -/

/-- The `token_info` dict stored in the Flask session.  `expires_at` is
optional because the code reads it with `token_info.get("expires_at", 0)`. -/
structure TokenInfo where
  access_token : String
  refresh_token : String
  expires_at : Option Int
  deriving DecidableEq

/-- The per-browser Flask session, as far as the code uses it: the optional
`token_info` entry. -/
structure Session where
  token_info : Option TokenInfo
  deriving DecidableEq

/-- Outcome of one `oauth.refresh_access_token` call: a fresh token dict, or
an exception. -/
inductive RefreshResult where
  | success (ti : TokenInfo)
  | failure
  deriving DecidableEq

/-- Line 63 of `app.py`:
`is_expired = token_info.get("expires_at", 0) - int(time.time()) < 60`. -/
def is_expired (ti : TokenInfo) (now : Int) : Bool :=
  ti.expires_at.getD 0 - now < 60

/-- `_ensure_token` (app.py lines 59-73).  `refresh` is the
`refresh_access_token` oracle, indexed by the refresh token it is given.
Returns the access token (or `none`), the resulting session, and the number
of refresh calls performed. -/
def ensure_token (now : Int) (refresh : String → RefreshResult) (s : Session) :
    Option String × Session × Nat :=
  match s.token_info with
  | none => (none, s, 0)
  | some ti =>
    if is_expired ti now then
      match refresh ti.refresh_token with
      | RefreshResult.success ti2 => (some ti2.access_token, { token_info := some ti2 }, 1)
      | RefreshResult.failure => (none, { token_info := none }, 1)
    else
      (some ti.access_token, s, 0)

/-! ## `/login` route -/

/-- The fields of the `SpotifyOAuth` object that the routes consult. -/
structure OAuthConfig where
  cache_path : Option String
  authorize_url : String

/-- `_sp_oauth()` (app.py lines 43-51): constructed with `cache_path=None`;
`get_authorize_url()` is modelled by the `authorize_url` field. -/
def sp_oauth (authorize_url : String) : OAuthConfig :=
  { cache_path := none, authorize_url := authorize_url }

/-- Application state visible to the `/login` handler: the session and the
set of filesystem paths that currently exist (for the `.cache` file). -/
structure AppState where
  session : Session
  files : List String
  deriving DecidableEq

/-- Response of the `/login` handler. -/
inductive LoginResponse where
  | redirect (loc : String)
  deriving DecidableEq

/-- The `/login` handler (app.py lines 112-117): reads
`_sp_oauth().cache_path`, removes that file if it is set and exists, and
redirects to the authorization URL.  The session is not touched. -/
def login (authorize_url : String) (st : AppState) : LoginResponse × AppState :=
  let oauth := sp_oauth authorize_url
  let st2 :=
    match oauth.cache_path with
    | some p => if p ∈ st.files then { st with files := st.files.filter (· ≠ p) } else st
    | none => st
  (LoginResponse.redirect (sp_oauth authorize_url).authorize_url, st2)

/-! ## `/settings/<track_id>` routes -/

/-- Responses of the settings handlers.  `err` is the JSON-error shape used
by the other routes of the app (e.g. `{"error": "not_authenticated"}` with
status 401); the settings handlers never produce it. -/
inductive SettingsResponse where
  | saved (track_id : TrackId) (tempo speed : Option ℚ)
  | values (tempo speed : Option ℚ)
  | err (status : Nat) (error : String)
  deriving DecidableEq

/-- `save_song_settings` (app.py lines 314-324): `POST /settings/<track_id>`.
The session is ambient state available to every handler; this handler never
reads it. -/
def save_song_settings (_s : Session) (db : SettingsStore) (tid : TrackId)
    (body : SongSetting) : SettingsResponse × SettingsStore :=
  (SettingsResponse.saved tid body.tempo body.speed, dbUpsert db tid body)

/-- `get_song_settings` (app.py lines 326-336): `GET /settings/<track_id>`.
The session is ambient state available to every handler; this handler never
reads it. -/
def get_song_settings (_s : Session) (db : SettingsStore) (tid : TrackId) :
    SettingsResponse :=
  match dbLookup db tid with
  | some row => SettingsResponse.values row.tempo row.speed
  | none => SettingsResponse.values none none

/-! ## Remote API model for the transition flow -/

/-- A remote track object, with the fields the code reads:
`track["name"]`, `track["artists"][...]["name"]`, `track["id"]`,
`track.get("preview_url")`. -/
structure Track where
  id : String
  name : String
  artists : List String
  preview_url : Option String
  deriving DecidableEq

/-- The `{tempo, energy}` pair obtained from `sp.audio_features`. -/
structure AudioFeatures where
  tempo : ℚ
  energy : ℚ
  deriving DecidableEq

/-- The oracles for the remote Spotify calls made by `transition_between`.
`audio_features tid = none` covers every way the audio-features fetch can
fail (exception, empty list, falsy first element): the code collapses all of
them into the same 400 response.  `recommendations` takes the seed tracks,
the limit, and the optional `(target_tempo, target_energy)` pair (`none` for
the 1-result probe in `_check_track_for_recommendations`); `search` takes
the query string and limit; `playlist_items` takes the playlist id and
limit, returning items whose `"track"` entry may be missing (`Option`). -/
structure RemoteApi where
  audio_features : TrackId → Option AudioFeatures
  recommendations : List TrackId → Nat → Option (ℚ × ℚ) → Except String (List Track)
  search : String → Nat → Except String (List Track)
  playlist_items : String → Nat → Except String (List (Option Track))

/-- Trace entries for the instrumented remote calls of the transition flow
(the audio-features fetches and the recommendation calls). -/
inductive RemoteCall where
  | audioFeatures (tid : TrackId)
  | recommendations (seeds : List TrackId) (limit : Nat) (targets : Option (ℚ × ℚ))
  deriving DecidableEq

/-- An entry of the `suggestions` list each path of `transition_between`
builds: `{name, artist, id, preview_url}` plus the optional `genre` tag the
genre path adds. -/
structure Suggestion where
  name : String
  artist : String
  id : String
  preview_url : Option String
  genre : Option String
  deriving DecidableEq

/-- Building one suggestion dict from a remote track:
`track["artists"][0]["name"] if track.get("artists") else ""`. -/
def suggestionOfTrack (t : Track) (genre : Option String) : Suggestion :=
  { name := t.name
    artist := t.artists.head?.getD ("")
    id := t.id
    preview_url := t.preview_url
    genre := genre }

/-- Response of the `/transition_between` route: a 200 `{"suggestions": ...}`
payload or an error status with `{"error": ..., "message": ...}`. -/
inductive TransitionResponse where
  | ok (suggestions : List Suggestion)
  | err (status : Nat) (error : String) (message : String)
  deriving DecidableEq

/-- The parsed JSON body of a `POST /transition_between` request:
`data.get("track_ids", [])`, the truthiness of `data.get("use_genres")`, and
`data.get("genres", ["pop", "rock"])` (`none` when the key is absent). -/
structure TransitionRequest where
  track_ids : List TrackId
  use_genres : Bool
  genres : Option (List String)

/-! ## Transition flow: feature resolution (app.py lines 183-207) -/

/-- The energy stored with a custom row: `row[1] if row[1] else 0.5`
(Python truthiness: both a missing speed and a zero speed fall back to 0.5). -/
def customEnergy (speed : Option ℚ) : ℚ :=
  match speed with
  | some s => if s = 0 then 1/2 else s
  | none => 1/2

/-- Resolving `(tempo, energy)` for one track (one iteration of the
`for track_id in track_ids` loop, lines 185-207): prefer a stored row with a
non-null tempo, else call the remote audio-features endpoint.  Returns the
features (`none` means the 400 `features_error` return) together with the
trace of remote audio-features calls made. -/
def resolveTrackFeatures (db : SettingsStore) (api : RemoteApi) (tid : TrackId) :
    Option AudioFeatures × List RemoteCall :=
  match dbLookup db tid with
  | some row =>
    match row.tempo with
    | some t => (some { tempo := t, energy := customEnergy row.speed }, [])
    | none => (api.audio_features tid, [RemoteCall.audioFeatures tid])
  | none => (api.audio_features tid, [RemoteCall.audioFeatures tid])

/-- The whole feature-resolution loop: resolves each track in order and
returns early (with the error) at the first track whose features cannot be
obtained, as the Python loop does with its early `return`. -/
def collectFeatures (db : SettingsStore) (api : RemoteApi) :
    List TrackId → Except Unit (List AudioFeatures) × List RemoteCall
  | [] => (Except.ok [], [])
  | tid :: rest =>
    match resolveTrackFeatures db api tid with
    | (some f, c) =>
      match collectFeatures db api rest with
      | (Except.ok fs, cs) => (Except.ok (f :: fs), c ++ cs)
      | (Except.error e, cs) => (Except.error e, c ++ cs)
    | (none, c) => (Except.error (), c)

/-! ## Recommendation-support probe (app.py lines 464-485) -/

/-- `KNOWN_WORKING_TRACKS` (app.py lines 465-474). -/
def KNOWN_WORKING_TRACKS : List TrackId :=
  [ "6DCZcSspjsKoFjzjrWoCdn"
  , "0e7ipj03S05BNilyu5bRzt"
  , "3ee8Jmje8o58CHK66QrVC2"
  , "0VjIjW4GlUZAMYd2vXMi3b"
  , "7qiZfU4dY1lWllzX7mPBI3"
  , "5CtI0qwDJkDQGwXD1H1cLb"
  , "1zi7xx7UVEFkmKfv06H8x0"
  , "7KXjTSCq5nL1LoYtL7XAwS" ]

/-- `_check_track_for_recommendations` (app.py lines 476-485): trust the
allow-list, else issue a 1-result probe recommendation call and treat any
exception as unsupported. -/
def check_track_for_recommendations (api : RemoteApi) (tid : TrackId) :
    Bool × List RemoteCall :=
  if tid ∈ KNOWN_WORKING_TRACKS then (true, [])
  else
    match api.recommendations [tid] 1 none with
    | Except.ok _ => (true, [RemoteCall.recommendations [tid] 1 none])
    | Except.error _ => (false, [RemoteCall.recommendations [tid] 1 none])

/-- `all(_check_track_for_recommendations(sp, tid) for tid in track_ids)`:
Python `all` over a generator short-circuits at the first `False`. -/
def checkAllTracks (api : RemoteApi) : List TrackId → Bool × List RemoteCall
  | [] => (true, [])
  | tid :: rest =>
    match check_track_for_recommendations api tid with
    | (true, c) =>
      match checkAllTracks api rest with
      | (b, cs) => (b, c ++ cs)
    | (false, c) => (false, c)

/-! ## Track-based recommendation block (app.py lines 180-243) -/

/-- The track-based block of `transition_between` for the two supplied track
ids.  Result `none` means the block fell through (recommendations skipped,
failed, or empty) to the genre/fallback logic below it; `some resp` means it
returned `resp`.  The second component is the trace of instrumented remote
calls. -/
def trackBasedBlock (db : SettingsStore) (api : RemoteApi) (a b : TrackId) :
    Option TransitionResponse × List RemoteCall :=
  match collectFeatures db api [a, b] with
  | (Except.error _, tr) =>
    (some (TransitionResponse.err 400 "features_error"
      "Could not fetch audio features for one or both tracks."), tr)
  | (Except.ok fs, tr) =>
    match fs with
    | [f1, f2] =>
      let target_tempo := (f1.tempo + f2.tempo) / 2
      let target_energy := (f1.energy + f2.energy) / 2
      match checkAllTracks api [a, b] with
      | (true, tr2) =>
        let call := RemoteCall.recommendations [a, b] 10 (some (target_tempo, target_energy))
        match api.recommendations [a, b] 10 (some (target_tempo, target_energy)) with
        | Except.ok tracks =>
          let suggestions := tracks.map (fun t => suggestionOfTrack t none)
          if suggestions = [] then (none, tr ++ tr2 ++ [call])
          else (some (TransitionResponse.ok suggestions), tr ++ tr2 ++ [call])
        | Except.error _ => (none, tr ++ tr2 ++ [call])
      | (false, tr2) => (none, tr ++ tr2)
    | _ =>
      (some (TransitionResponse.err 400 "features_error"
        "Could not retrieve features for both tracks."), tr)

/-! ## Genre search block (app.py lines 246-281) -/

/-- Appending search items beneath the cap:
`if len(suggestions) >= 10: break` then append (lines 253-262). -/
def appendSearchItems (items : List Track) (g : String) (acc : List Suggestion) :
    List Suggestion :=
  match items with
  | [] => acc
  | t :: rest =>
    if 10 ≤ acc.length then acc
    else appendSearchItems rest g (acc ++ [suggestionOfTrack t (some g)])

/-- The `for genre in genres[:3]` search loop; any raised exception aborts
the whole block (lines 251-262). -/
def genreSearchLoop (api : RemoteApi) :
    List String → List Suggestion → Except String (List Suggestion)
  | [], acc => Except.ok acc
  | g :: rest, acc =>
    match api.search ("genre:" ++ g) 4 with
    | Except.error e => Except.error e
    | Except.ok items => genreSearchLoop api rest (appendSearchItems items g acc)

/-- Appending playlist items: `if item.get("track") and len(suggestions) < 10:
append` — the loop keeps scanning, it never breaks (lines 266-275 and
295-303). -/
def appendPlaylistItems (items : List (Option Track)) (genre : Option String)
    (acc : List Suggestion) : List Suggestion :=
  match items with
  | [] => acc
  | none :: rest => appendPlaylistItems rest genre acc
  | some t :: rest =>
    if acc.length < 10 then appendPlaylistItems rest genre (acc ++ [suggestionOfTrack t genre])
    else appendPlaylistItems rest genre acc

/-- The genre path (app.py lines 246-281), reached when
`data.get("use_genres")` is truthy: search up to 3 genres (4 tracks each,
capped at 10), top up from playlist `37i9dQZEVXbMDoHDwVN2tF` when fewer than
5 were found, 404 when still empty, 500 when any remote call raised. -/
def genreBlock (api : RemoteApi) (genres : List String) : TransitionResponse :=
  let searched : Except String (List Suggestion) := genreSearchLoop api (genres.take 3) []
  let topped : Except String (List Suggestion) :=
    match searched with
    | Except.error e => Except.error e
    | Except.ok s1 =>
      if s1.length < 5 then
        match api.playlist_items ("37i9dQZEVXbMDoHDwVN2tF") 5 with
        | Except.error e => Except.error e
        | Except.ok items => Except.ok (appendPlaylistItems items (some ("popular")) s1)
      else Except.ok s1
  match topped with
  | Except.error e =>
    TransitionResponse.err 500 "Search error"
      ("Error searching for genres: " ++ e ++ ". Please try different genres.")
  | Except.ok [] =>
    TransitionResponse.err 404 "No tracks found"
      "Could not find any tracks for the selected genres. Please try different genres."
  | Except.ok s => TransitionResponse.ok s

/-! ## Fixed-playlist fallback block (app.py lines 283-309) -/

/-- The fixed list of fallback playlists (app.py lines 285-289): Global Top
50, Todays Top Hits, RapCaviar. -/
def fallbackPlaylistIds : List String :=
  ["37i9dQZEVXbMDoHDwVN2tF", "37i9dQZF1DXcBWIGoYBM5M", "37i9dQZF1DX0XUsuxWHRQd"]

/-- The `for playlist_id in playlist_ids` loop (lines 291-303):
`if len(suggestions) >= 10: break`, fetch the playlist (limit 10), append
its track items while below the cap. -/
def fallbackLoop (api : RemoteApi) :
    List String → List Suggestion → Except String (List Suggestion)
  | [], acc => Except.ok acc
  | pid :: rest, acc =>
    if 10 ≤ acc.length then Except.ok acc
    else
      match api.playlist_items pid 10 with
      | Except.error e => Except.error e
      | Except.ok items => fallbackLoop api rest (appendPlaylistItems items none acc)

/-- The generic fallback path (app.py lines 283-309): sample up to 10 tracks
from the fixed fallback playlists, 404 when none found, 500 when a remote
call raised. -/
def genericFallback (api : RemoteApi) : TransitionResponse :=
  match fallbackLoop api fallbackPlaylistIds [] with
  | Except.error e =>
    TransitionResponse.err 500 "Tracks error"
      ("Error: " ++ e ++ ". Please try using genres instead.")
  | Except.ok [] =>
    TransitionResponse.err 404 "No tracks found"
      "Could not find any tracks. Please try using genres instead."
  | Except.ok s => TransitionResponse.ok s

/-! ## `transition_between` (app.py lines 170-312) -/

/-- The logic after the track-based block: the genre path when `use_genres`
is truthy, else the fixed-playlist fallback (lines 246-309). -/
def afterTrackBlock (api : RemoteApi) (req : TransitionRequest) : TransitionResponse :=
  if req.use_genres then genreBlock api (req.genres.getD ["pop", "rock"])
  else genericFallback api

/-- The body of `transition_between` once authenticated (app.py lines
175-312): run the track-based block when exactly two track ids were
supplied, fall through to the genre / fixed-playlist logic otherwise or when
it yields nothing.  Returns the response and the instrumented call trace. -/
def transition_between (db : SettingsStore) (api : RemoteApi) (req : TransitionRequest) :
    TransitionResponse × List RemoteCall :=
  match req.track_ids with
  | [a, b] =>
    match trackBasedBlock db api a b with
    | (some resp, tr) => (resp, tr)
    | (none, tr) => (afterTrackBlock api req, tr)
  | _ => (afterTrackBlock api req, [])

/-- The `/transition_between` route (app.py lines 170-174 plus the body):
`_spotify_client()` returns `None` exactly when `_ensure_token()` does, in
which case the route answers 401 `not_authenticated`. -/
def transition_between_route (now : Int) (refresh : String → RefreshResult) (s : Session)
    (db : SettingsStore) (api : RemoteApi) (req : TransitionRequest) :
    TransitionResponse × List RemoteCall × Session :=
  match ensure_token now refresh s with
  | (none, s2, _) =>
    (TransitionResponse.err 401 "not_authenticated" "Please log in again", [], s2)
  | (some _, s2, _) =>
    match transition_between db api req with
    | (resp, tr) => (resp, tr, s2)

/-! ## `/playlists` route (app.py lines 130-148) -/

/-- The chain of pages returned by `sp.current_user_playlists` and the
subsequent `sp.next` calls; each page carries its playlist items (uninterpreted
here) and possibly a next page. -/
inductive PlaylistPages where
  | last (items : List String)
  | more (items : List String) (next : PlaylistPages)

/-- The pagination loop of `/playlists` (lines 137-142): accumulate items
across the chain of pages. -/
def collectPages : PlaylistPages → List String
  | PlaylistPages.last items => items
  | PlaylistPages.more items next => items ++ collectPages next

/-- Response of the `/playlists` route. -/
inductive PlaylistsResponse where
  | redirect (loc : String)
  | page (playlists : List String)
  | err (status : Nat) (error : String) (detail : String)
  deriving DecidableEq

/-- The `/playlists` route (app.py lines 130-148): redirect to `/login` when
`_spotify_client()` (i.e. `_ensure_token()`) yields nothing, else fetch and
render all pages, converting a raised exception into a 500 JSON error. -/
def playlists (now : Int) (refresh : String → RefreshResult) (s : Session)
    (fetch : Except String PlaylistPages) : PlaylistsResponse × Session :=
  match ensure_token now refresh s with
  | (none, s2, _) => (PlaylistsResponse.redirect ("/login"), s2)
  | (some _, s2, _) =>
    match fetch with
    | Except.ok pages => (PlaylistsResponse.page (collectPages pages), s2)
    | Except.error e => (PlaylistsResponse.err 500 "Spotify API error" e, s2)

/-! ## Concrete scenarios used by witnesses and counterexamples -/

/-- A benign remote API: features unavailable, empty recommendation/search
results, empty playlists. -/
def benignApi : RemoteApi :=
  { audio_features := fun _ => none
    recommendations := fun _ _ _ => Except.ok []
    search := fun _ _ => Except.ok []
    playlist_items := fun _ _ => Except.ok [] }

/-- A sample remote track. -/
def sampleTrack : Track :=
  { id := "trk1", name := "Song One", artists := ["Artist One"], preview_url := none }

/-- A remote API where the recommendations endpoint is down, genre searches
return nothing, and among the fixed fallback playlists only the second
(`37i9dQZF1DXcBWIGoYBM5M`) has a track. -/
def genreCexApi : RemoteApi :=
  { audio_features := fun _ => none
    recommendations := fun _ _ _ => Except.error ("rec down")
    search := fun _ _ => Except.ok []
    playlist_items := fun pid _ =>
      if pid = "37i9dQZF1DXcBWIGoYBM5M" then Except.ok [some sampleTrack]
      else Except.ok [] }

/-- Settings rows giving both requested tracks a custom tempo, so the
feature-resolution step succeeds locally. -/
def genreCexDb : SettingsStore :=
  [("x", { tempo := some 100, speed := none }), ("y", { tempo := some 120, speed := none })]

/-- A transition request with two tracks and genre search enabled. -/
def genreCexReq : TransitionRequest :=
  { track_ids := ["x", "y"], use_genres := true, genres := none }

/-- A transition request with no track pair and no genre flag: it goes
straight to the fixed-playlist fallback. -/
def fallbackReq : TransitionRequest :=
  { track_ids := [], use_genres := false, genres := none }

/-- A token whose expiry is exactly 60 seconds after time 1000. -/
def boundaryToken : TokenInfo :=
  { access_token := "tok0", refresh_token := "ref0", expires_at := some 1060 }

/-- A session holding `boundaryToken`. -/
def boundarySession : Session := { token_info := some boundaryToken }

/-- A refresh oracle that always succeeds with a fresh token, so any refresh
attempt would be observable in the result. -/
def refreshAlwaysNew : String → RefreshResult :=
  fun _ => RefreshResult.success
    { access_token := "tok1", refresh_token := "ref1", expires_at := some 9999 }

/-- A token that is long expired at time 0. -/
def expiredToken : TokenInfo :=
  { access_token := "tok", refresh_token := "ref", expires_at := some 0 }

/-- Application state for the `/login` counterexample: a session holding a
token, no cache files on disk. -/
def loginCexState : AppState :=
  { session := { token_info := some boundaryToken }, files := [] }

/-- A settings row with a custom tempo and no speed. -/
def customRow : SongSetting := { tempo := some 128, speed := none }

/-- Settings rows realising the spec instance: tempos `(100, 140)` and
energies `(0.4, 0.6)` (stored in the speed column, which the flow reads as
energy), on two allow-listed track ids. -/
def meansDb : SettingsStore :=
  [ ("6DCZcSspjsKoFjzjrWoCdn", { tempo := some 100, speed := some (2/5) })
  , ("0e7ipj03S05BNilyu5bRzt", { tempo := some 140, speed := some (3/5) }) ]

/-! ## Helper lemmas -/

/-- Upserting and then looking up the same key yields the upserted row. -/
theorem dbLookup_dbUpsert (db : SettingsStore) (tid : TrackId) (s' : SongSetting) :
    dbLookup (dbUpsert db tid s') tid = some s' := by
  unfold dbLookup dbUpsert
  rw [List.find?_cons_of_pos _ (by simp)]
  rfl

/-! ## Claim theorems -/

/-- C2, counterexample: at the exact boundary `expires_at - now = 60` the
token is NOT treated as expired: `_ensure_token` performs zero refresh calls
and returns the original access token unchanged, even though the refresh
oracle stands ready with a fresh token. -/
theorem boundary_token_not_refreshed :
    boundaryToken.expires_at.getD 0 - 1000 = 60 ∧
    ensure_token 1000 refreshAlwaysNew boundarySession = (some ("tok0"), boundarySession, 0) :=
  ⟨rfl, rfl⟩

/-- C2, amended: `_ensure_token` attempts a refresh (performs at least one
refresh call) iff `expires_at - now < 60` strictly; at the exact boundary
`expires_at - now = 60` the token is treated as still valid: no refresh is
attempted and the stored access token is returned with the session
unchanged. -/
theorem token_expiry_strict_inequality (now : Int) (refresh : String → RefreshResult)
    (s : Session) (ti : TokenInfo) (hs : s.token_info = some ti) :
    (1 ≤ (ensure_token now refresh s).2.2 ↔ ti.expires_at.getD 0 - now < 60) ∧
    (ti.expires_at.getD 0 - now = 60 →
      ensure_token now refresh s = (some ti.access_token, s, 0)) := by
  constructor
  · constructor
    · intro hcount
      by_contra hlt
      have hb : is_expired ti now = false := by
        simp only [is_expired, decide_eq_false_iff_not]
        exact hlt
      simp [ensure_token, hs, hb] at hcount
    · intro hlt
      have hb : is_expired ti now = true := by
        simp only [is_expired, decide_eq_true_eq]
        exact hlt
      simp only [ensure_token, hs, hb, if_true]
      cases refresh ti.refresh_token <;> simp
  · intro h60
    have hb : is_expired ti now = false := by
      simp only [is_expired, decide_eq_false_iff_not]
      omega
    simp [ensure_token, hs, hb]

/-- Witness for `token_expiry_strict_inequality` at the concrete boundary
instance `now = 1000`, `expires_at = 1060`. -/
theorem token_expiry_strict_inequality_instance :
    (1 ≤ (ensure_token 1000 refreshAlwaysNew boundarySession).2.2 ↔
      boundaryToken.expires_at.getD 0 - 1000 < 60) ∧
    (boundaryToken.expires_at.getD 0 - 1000 = 60 →
      ensure_token 1000 refreshAlwaysNew boundarySession =
        (some boundaryToken.access_token, boundarySession, 0)) :=
  token_expiry_strict_inequality 1000 refreshAlwaysNew boundarySession boundaryToken rfl

/-- C3, counterexample: a `/login` request with a token in the session
leaves that token stored — the session is NOT left without a stored
credential. -/
theorem login_keeps_session_token :
    ((login ("https://accounts.spotify.com/authorize") loginCexState).2).session.token_info
        = some boundaryToken ∧
    some boundaryToken ≠ (none : Option TokenInfo) :=
  ⟨rfl, by simp⟩

/-- C3, amended: `/login` consults the OAuth cache path, which is always
`None` because `_sp_oauth` is constructed with `cache_path=None`, so it
deletes nothing and leaves the whole application state (session token
included) unchanged, answering with a redirect to the remote authorization
URL. -/
theorem login_redirect_leaves_state (url : String) (st : AppState) :
    login url st = (LoginResponse.redirect url, st) :=
  rfl

/-- C5: a `GET /settings/<track_id>` immediately after a
`POST /settings/<track_id>` with body `{tempo, speed}` returns exactly
`{tempo, speed}`, for every prior store state and any sessions; and
upserting the same `track_id` twice leaves only the latest values
retrievable. -/
theorem settings_post_then_get (s1 s2 s3 s4 : Session) (db : SettingsStore)
    (tid : TrackId) (b b1 b2 : SongSetting) :
    get_song_settings s2 (save_song_settings s1 db tid b).2 tid =
      SettingsResponse.values b.tempo b.speed ∧
    get_song_settings s4
        (save_song_settings s3 (save_song_settings s1 db tid b1).2 tid b2).2 tid =
      SettingsResponse.values b2.tempo b2.speed := by
  constructor
  · simp [get_song_settings, save_song_settings, dbLookup_dbUpsert]
  · simp [get_song_settings, save_song_settings, dbLookup_dbUpsert]

/-- C6: whenever `_ensure_token` yields nothing (token absent or
unrefreshable), `/playlists` answers with a redirect to `/login` and
`/transition_between` answers 401 with `{"error": "not_authenticated"}`. -/
theorem unauthenticated_redirect_and_401 (now : Int) (refresh : String → RefreshResult)
    (s : Session) (db : SettingsStore) (api : RemoteApi) (req : TransitionRequest)
    (fetch : Except String PlaylistPages)
    (h : (ensure_token now refresh s).1 = none) :
    (playlists now refresh s fetch).1 = PlaylistsResponse.redirect ("/login") ∧
    (transition_between_route now refresh s db api req).1 =
      TransitionResponse.err 401 "not_authenticated" "Please log in again" := by
  rcases he : ensure_token now refresh s with ⟨tok, s2, n⟩
  rw [he] at h
  simp only at h
  subst h
  constructor
  · simp [playlists, he]
  · simp [transition_between_route, he]

/-- Witness for `unauthenticated_redirect_and_401` on an anonymous
session. -/
theorem unauthenticated_redirect_and_401_instance :
    (playlists 0 (fun _ => RefreshResult.failure) { token_info := none }
        (Except.ok (PlaylistPages.last []))).1 = PlaylistsResponse.redirect ("/login") ∧
    (transition_between_route 0 (fun _ => RefreshResult.failure) { token_info := none }
        [] benignApi fallbackReq).1 =
      TransitionResponse.err 401 "not_authenticated" "Please log in again" :=
  unauthenticated_redirect_and_401 0 (fun _ => RefreshResult.failure)
    { token_info := none } [] benignApi fallbackReq (Except.ok (PlaylistPages.last [])) rfl

/-- C7: when the stored token is expired and the single refresh attempt
fails, `_ensure_token` removes the token from the session and returns
`none`, performing exactly one refresh call (no retry) and raising nothing
(it returns a value to its caller). -/
theorem refresh_failure_clears_session (now : Int) (refresh : String → RefreshResult)
    (s : Session) (ti : TokenInfo) (hs : s.token_info = some ti)
    (hexp : is_expired ti now = true)
    (hfail : refresh ti.refresh_token = RefreshResult.failure) :
    ensure_token now refresh s = (none, { token_info := none }, 1) := by
  simp [ensure_token, hs, hexp, hfail]

/-- Witness for `refresh_failure_clears_session` with a long-expired token
and a failing refresh oracle. -/
theorem refresh_failure_clears_session_instance :
    ensure_token 0 (fun _ => RefreshResult.failure) { token_info := some expiredToken } =
      (none, { token_info := none }, 1) :=
  refresh_failure_clears_session 0 (fun _ => RefreshResult.failure)
    { token_info := some expiredToken } expiredToken rfl rfl rfl

/-- C8: looking up a `track_id` with no row in the settings store returns
the pair `(null, null)`. -/
theorem unknown_track_settings_null (s : Session) (db : SettingsStore) (tid : TrackId)
    (h : dbLookup db tid = none) :
    get_song_settings s db tid = SettingsResponse.values none none := by
  simp [get_song_settings, h]

/-- Witness for `unknown_track_settings_null` on the empty store. -/
theorem unknown_track_settings_null_instance :
    get_song_settings { token_info := none } [] "zzz" = SettingsResponse.values none none :=
  unknown_track_settings_null { token_info := none } [] "zzz" rfl

/-- C10: the `/settings/<track_id>` handlers never consult the session: for
any two sessions their response and their effect on the settings store are
identical, and they never produce a JSON error (in particular never
`not_authenticated`). -/
theorem settings_routes_ignore_session (s1 s2 : Session) (db : SettingsStore)
    (tid : TrackId) (body : SongSetting) :
    save_song_settings s1 db tid body = save_song_settings s2 db tid body ∧
    get_song_settings s1 db tid = get_song_settings s2 db tid ∧
    (∀ st e, (save_song_settings s1 db tid body).1 ≠ SettingsResponse.err st e) ∧
    (∀ st e, get_song_settings s1 db tid ≠ SettingsResponse.err st e) := by
  refine ⟨rfl, rfl, fun st e => by simp [save_song_settings], fun st e => ?_⟩
  unfold get_song_settings
  cases dbLookup db tid <;> simp

/-- C4: in the transition flow, a track whose settings row has a non-null
tempo resolves to that stored tempo without any remote audio-features call
(empty remote-call trace), and its energy defaults to 0.5 when the row
stores no second value. -/
theorem custom_tempo_skips_remote_features (db : SettingsStore) (api : RemoteApi)
    (tid : TrackId) (row : SongSetting) (t : ℚ)
    (hrow : dbLookup db tid = some row) (ht : row.tempo = some t) :
    (resolveTrackFeatures db api tid).2 = [] ∧
    ∃ f, (resolveTrackFeatures db api tid).1 = some f ∧ f.tempo = t ∧
      (row.speed = none → f.energy = 1/2) := by
  unfold resolveTrackFeatures
  rw [hrow]
  dsimp only
  rw [ht]
  exact ⟨rfl, { tempo := t, energy := customEnergy row.speed }, rfl, rfl,
    fun hsp => by rw [hsp]; rfl⟩

/-- Witness for `custom_tempo_skips_remote_features` on a row with tempo 128
and no stored speed. -/
theorem custom_tempo_skips_remote_features_instance :
    (resolveTrackFeatures [("a", customRow)] benignApi ("a")).2 = [] ∧
    ∃ f, (resolveTrackFeatures [("a", customRow)] benignApi ("a")).1 = some f ∧
      f.tempo = 128 ∧ (customRow.speed = none → f.energy = 1/2) :=
  custom_tempo_skips_remote_features [("a", customRow)] benignApi ("a") customRow 128 rfl rfl

/-- C9: when both tracks resolve to features and the recommendation probe
passes, the transition flow calls the recommendation endpoint with target
tempo and energy equal to the arithmetic means of the two resolved pairs. -/
theorem transition_targets_are_means (db : SettingsStore) (api : RemoteApi)
    (a b : TrackId) (f1 f2 : AudioFeatures) (tr : List RemoteCall)
    (hfeat : collectFeatures db api [a, b] = (Except.ok [f1, f2], tr))
    (hchk : (checkAllTracks api [a, b]).1 = true) :
    RemoteCall.recommendations [a, b] 10
        (some ((f1.tempo + f2.tempo) / 2, (f1.energy + f2.energy) / 2)) ∈
      (trackBasedBlock db api a b).2 := by
  unfold trackBasedBlock
  rw [hfeat]
  rcases hc : checkAllTracks api [a, b] with ⟨bb, tr2⟩
  rw [hc] at hchk
  simp only at hchk
  subst hchk
  dsimp only
  cases hrec : api.recommendations [a, b] 10
      (some ((f1.tempo + f2.tempo) / 2, (f1.energy + f2.energy) / 2)) with
  | error e => simp
  | ok tracks =>
    by_cases hempty : tracks.map (fun t => suggestionOfTrack t none) = []
    · simp [hempty]
    · simp [hempty]

/-- Witness for `transition_targets_are_means` on the spec instance: stored
tempos `(100, 140)` and energies `(0.4, 0.6)` yield the recommendation call
with target tempo 120 and target energy 0.5. -/
theorem transition_targets_are_means_instance :
    RemoteCall.recommendations ["6DCZcSspjsKoFjzjrWoCdn", "0e7ipj03S05BNilyu5bRzt"] 10
        (some (120, 1/2)) ∈
      (trackBasedBlock meansDb benignApi
        ("6DCZcSspjsKoFjzjrWoCdn") ("0e7ipj03S05BNilyu5bRzt")).2 := by
  have h := transition_targets_are_means meansDb benignApi
    ("6DCZcSspjsKoFjzjrWoCdn") ("0e7ipj03S05BNilyu5bRzt")
    { tempo := 100, energy := 2/5 } { tempo := 140, energy := 3/5 } []
    (by simp [collectFeatures, resolveTrackFeatures, dbLookup, meansDb,
          customEnergy, List.find?])
    rfl
  norm_num at h ⊢
  exact h

/-- Appending playlist items never pushes the suggestion list past 10. -/
theorem appendPlaylistItems_length_le (items : List (Option Track)) (g : Option String)
    (acc : List Suggestion) (h : acc.length ≤ 10) :
    (appendPlaylistItems items g acc).length ≤ 10 := by
  induction items generalizing acc with
  | nil => simpa [appendPlaylistItems] using h
  | cons it rest ih =>
    cases it with
    | none => simpa [appendPlaylistItems] using ih acc h
    | some t =>
      simp only [appendPlaylistItems]
      split
      · rename_i hlt
        exact ih _ (by simp; omega)
      · exact ih _ h

/-- Appending playlist items yields the empty list exactly when the
accumulator was empty and every item lacked a track. -/
theorem appendPlaylistItems_eq_nil_iff (items : List (Option Track)) (g : Option String)
    (acc : List Suggestion) :
    appendPlaylistItems items g acc = [] ↔ acc = [] ∧ ∀ it ∈ items, it = none := by
  induction items generalizing acc with
  | nil => simp [appendPlaylistItems]
  | cons it rest ih =>
    cases it with
    | none => simp [appendPlaylistItems, ih, List.forall_mem_cons]
    | some t =>
      simp only [appendPlaylistItems]
      split
      · rename_i hlt
        rw [ih]
        simp [List.forall_mem_cons]
      · rename_i hge
        have hne : acc ≠ [] := by
          intro h0
          subst h0
          simp at hge
        rw [ih]
        simp [hne, List.forall_mem_cons]

/-- The fallback playlist loop, when every remaining fetch succeeds: it
returns a list of at most 10 suggestions, empty exactly when the
accumulator was empty and every fetched playlist had no track items. -/
theorem fallbackLoop_spec (api : RemoteApi) (ids : List String) (acc : List Suggestion)
    (hacc : acc.length ≤ 10)
    (hfetch : ∀ pid ∈ ids, ∃ l, api.playlist_items pid 10 = Except.ok l) :
    ∃ s, fallbackLoop api ids acc = Except.ok s ∧ s.length ≤ 10 ∧
      (s = [] ↔ acc = [] ∧
        ∀ pid ∈ ids, ∀ l, api.playlist_items pid 10 = Except.ok l → ∀ it ∈ l, it = none) := by
  induction ids generalizing acc with
  | nil => exact ⟨acc, rfl, hacc, by simp⟩
  | cons pid rest ih =>
    simp only [fallbackLoop]
    by_cases h10 : 10 ≤ acc.length
    · rw [if_pos h10]
      refine ⟨acc, rfl, hacc, ?_⟩
      have hne : acc ≠ [] := by
        intro h0
        subst h0
        simp at h10
      simp [hne]
    · rw [if_neg h10]
      obtain ⟨l, hl⟩ := hfetch pid (by simp)
      rw [hl]
      obtain ⟨s, hs, hslen, hsiff⟩ := ih (appendPlaylistItems l none acc)
        (appendPlaylistItems_length_le _ _ _ hacc)
        (fun q hq => hfetch q (List.mem_cons_of_mem _ hq))
      refine ⟨s, hs, hslen, ?_⟩
      rw [hsiff, appendPlaylistItems_eq_nil_iff]
      constructor
      · rintro ⟨⟨hacc0, hlnone⟩, hrest⟩
        refine ⟨hacc0, ?_⟩
        intro q hq l' hl'
        rcases List.mem_cons.mp hq with rfl | hq'
        · rw [hl] at hl'
          injection hl' with h
          subst h
          exact hlnone
        · exact hrest q hq' l' hl'
      · rintro ⟨hacc0, hall⟩
        exact ⟨⟨hacc0, hall pid (by simp) l hl⟩,
          fun q hq l' hl' => hall q (List.mem_cons_of_mem _ hq) l' hl'⟩

/-- When genre search is not requested and the track-based block yields
nothing, `transition_between` runs the fixed-playlist fallback. -/
theorem transition_between_reaches_fallback (db : SettingsStore) (api : RemoteApi)
    (req : TransitionRequest) (hg : req.use_genres = false)
    (htb : ∀ a b, req.track_ids = [a, b] → (trackBasedBlock db api a b).1 = none) :
    (transition_between db api req).1 = genericFallback api := by
  rcases hL : req.track_ids with _ | ⟨a, _ | ⟨b, _ | ⟨c, rest⟩⟩⟩
  · simp [transition_between, hL, afterTrackBlock, hg]
  · simp [transition_between, hL, afterTrackBlock, hg]
  · rcases hTB : trackBasedBlock db api a b with ⟨o, tr⟩
    have ho : o = none := by
      have h := htb a b hL
      rw [hTB] at h
      exact h
    subst ho
    simp [transition_between, hL, hTB, afterTrackBlock, hg]
  · simp [transition_between, hL, afterTrackBlock, hg]

/-- C1, counterexample: the recommendation path yields nothing (the remote
recommendation endpoint is down) and the genre path yields nothing (genre
searches and the genre top-up playlist are empty), yet the flow answers the
genre 404 without ever sampling the fixed fallback playlists — even though
the second fixed fallback playlist does have a track. -/
theorem genre_path_404_despite_fallback_tracks :
    genreCexApi.playlist_items ("37i9dQZF1DXcBWIGoYBM5M") 10 = Except.ok [some sampleTrack] ∧
    "37i9dQZF1DXcBWIGoYBM5M" ∈ fallbackPlaylistIds ∧
    (transition_between genreCexDb genreCexApi genreCexReq).1 =
      TransitionResponse.err 404 "No tracks found"
        "Could not find any tracks for the selected genres. Please try different genres." :=
  ⟨rfl, by simp [fallbackPlaylistIds], rfl⟩

/-- C1, amended: when the request does not enable genre search and the
track-based recommendation block yields no suggestions (in particular when
no two-track pair is supplied), the flow samples up to 10 tracks from the
fixed list of three fallback playlists: if those fetches succeed it returns
a non-empty suggestion list (of at most 10) whenever any of the three
playlists has a track item, and a 404 with an explanatory message exactly
when all of them are empty of track items.  When genre search is enabled,
the 404 of the genre path is returned instead and the fixed fallback list is
never sampled. -/
theorem fallback_path_nonempty_or_404 (db : SettingsStore) (api : RemoteApi)
    (req : TransitionRequest) (hg : req.use_genres = false)
    (htb : ∀ a b, req.track_ids = [a, b] → (trackBasedBlock db api a b).1 = none)
    (hfetch : ∀ pid ∈ fallbackPlaylistIds, ∃ l, api.playlist_items pid 10 = Except.ok l) :
    ((∃ pid ∈ fallbackPlaylistIds, ∃ l t,
        api.playlist_items pid 10 = Except.ok l ∧ some t ∈ l) →
      ∃ sugg, (transition_between db api req).1 = TransitionResponse.ok sugg ∧
        sugg ≠ [] ∧ sugg.length ≤ 10) ∧
    ((∀ pid ∈ fallbackPlaylistIds, ∀ l, api.playlist_items pid 10 = Except.ok l →
        ∀ it ∈ l, it = none) →
      (transition_between db api req).1 = TransitionResponse.err 404 "No tracks found"
        "Could not find any tracks. Please try using genres instead.") := by
  have hred := transition_between_reaches_fallback db api req hg htb
  obtain ⟨s, hs, hslen, hsiff⟩ := fallbackLoop_spec api fallbackPlaylistIds []
    (by simp) hfetch
  constructor
  · rintro ⟨pid, hpid, l, t, hl, ht⟩
    have hsne : s ≠ [] := by
      intro h0
      obtain ⟨-, hall⟩ := hsiff.mp h0
      have := hall pid hpid l hl (some t) ht
      simp at this
    refine ⟨s, ?_, hsne, hslen⟩
    rw [hred]
    unfold genericFallback
    rw [hs]
    cases s with
    | nil => exact absurd rfl hsne
    | cons a as => rfl
  · intro hall
    have hs0 : s = [] := hsiff.mpr ⟨rfl, hall⟩
    rw [hred]
    unfold genericFallback
    rw [hs, hs0]

/-- Witness for `fallback_path_nonempty_or_404`: no track pair, no genre
flag, one fixed fallback playlist non-empty — the flow returns a non-empty
suggestion list of at most 10. -/
theorem fallback_path_nonempty_or_404_instance :
    ∃ sugg, (transition_between [] genreCexApi fallbackReq).1 =
        TransitionResponse.ok sugg ∧ sugg ≠ [] ∧ sugg.length ≤ 10 := by
  have h := fallback_path_nonempty_or_404 [] genreCexApi fallbackReq rfl
    (fun a b hab => by simp [fallbackReq] at hab)
    (fun pid _ => by
      by_cases hp : pid = "37i9dQZF1DXcBWIGoYBM5M"
      · exact ⟨[some sampleTrack], by simp [genreCexApi, hp]⟩
      · exact ⟨[], by simp [genreCexApi, hp]⟩)
  exact h.1 ⟨"37i9dQZF1DXcBWIGoYBM5M", by simp [fallbackPlaylistIds],
    [some sampleTrack], sampleTrack, rfl, by simp⟩

end SpotifyApp
